import Mathlib

/-!
Verification of the QR Token & Attendance Core of the Attend-Project
repository (a campus attendance tracker).

The definitions below are a shallow embedding of the TypeScript source:
* the data model follows the table declarations in the shared schema
  (tables users / sessions / qr_tokens / attendance);
* `MemStorage` (the in-memory persistence stand-in) becomes a `Store`
  record of lists in insertion order, with each storage method a pure
  function; JavaScript `Map.set` with a fresh UUID key appends to the
  iteration order, so insertion is modelled as list append, and the
  fresh UUID and the current wall-clock time are passed explicitly;
* the Express route handlers for POST /api/verify-qr, POST /api/attendance
  and PATCH /api/sessions/:id, the faculty manual-override handler of
  LiveStats, the QR token generator of QRGenerator, and the geofence
  evaluator and scan submission of the student client are each translated
  to a function of the same shape as the source;
* timestamps are integers (milliseconds, as produced by Date.now and
  compared by JavaScript Date comparison); decimal coordinates carried in
  records are rationals; the geofence mathematics is over the reals.
-/

namespace Attend

/-! ## Data model (shared schema) -/

/-- Attendance status column: enum ["present", "absent", "manual"]. -/
inductive AttStatus where
  | present
  | absent
  | manual
deriving DecidableEq, Repr

/-- Geofencing status column: enum ["inside", "outside", "unknown"]. -/
inductive GeoStatus where
  | inside
  | outside
  | unknown
deriving DecidableEq, Repr

/-- A row of the sessions table. -/
structure Session where
  id : String
  facultyId : String
  semester : Int
  branch : String
  subject : String
  isActive : Bool
  geofencingEnabled : Bool
  createdAt : Int
  endedAt : Option Int
deriving DecidableEq, Repr

/-- A row of the qr_tokens table. -/
structure QRToken where
  id : String
  sessionId : String
  token : String
  expiresAt : Int
  createdAt : Int
deriving DecidableEq, Repr

/-- A row of the attendance table. -/
structure Attendance where
  id : String
  sessionId : String
  studentId : String
  status : AttStatus
  geofencingStatus : GeoStatus
  latitude : Option ℚ
  longitude : Option ℚ
  markedBy : Option String
  createdAt : Int
deriving DecidableEq, Repr

/-- insertAttendanceSchema: an attendance row without id / createdAt.
geofencingStatus is optional (the column has a default of "unknown"). -/
structure InsertAttendance where
  sessionId : String
  studentId : String
  status : AttStatus
  geofencingStatus : Option GeoStatus
  latitude : Option ℚ
  longitude : Option ℚ
  markedBy : Option String
deriving DecidableEq, Repr

/-- insertQRTokenSchema: a qr_tokens row without id / createdAt.
The expiry is supplied by the caller. -/
structure InsertQRToken where
  sessionId : String
  token : String
  expiresAt : Int
deriving DecidableEq, Repr

/-- `Partial<Session>` as received by PATCH /api/sessions/:id: any subset
of the session fields may be present; a missing field is `none`. -/
structure SessionUpdate where
  id : Option String := none
  facultyId : Option String := none
  semester : Option Int := none
  branch : Option String := none
  subject : Option String := none
  isActive : Option Bool := none
  geofencingEnabled : Option Bool := none
  createdAt : Option Int := none
  endedAt : Option (Option Int) := none
deriving DecidableEq, Repr

/-- The MemStorage state: the three stores relevant to the core, each a
list in insertion order (users are irrelevant to the claims). -/
structure Store where
  sessions : List Session
  attendance : List Attendance
  qrTokens : List QRToken
deriving DecidableEq, Repr

/-- The freshly constructed MemStorage: all maps empty. -/
def emptyStore : Store := { sessions := [], attendance := [], qrTokens := [] }

/-! ## MemStorage methods -/

/-- MemStorage.getAttendance: all attendance records of one session
(filter over the iteration order of the map). -/
def getAttendance (st : Store) (sessionId : String) : List Attendance :=
  st.attendance.filter (fun r => r.sessionId == sessionId)

/-- MemStorage.createAttendance: builds the row (applying the `?? null`
and `?? "unknown"` defaults of the source) and inserts it under a fresh
id; `freshId` is the result of randomUUID() and `now` the clock reading
taken by `new Date()`. No duplicate check of any kind is performed. -/
def createAttendance (st : Store) (ins : InsertAttendance) (freshId : String)
    (now : Int) : Attendance × Store :=
  let att : Attendance :=
    { id := freshId
      sessionId := ins.sessionId
      studentId := ins.studentId
      status := ins.status
      geofencingStatus := ins.geofencingStatus.getD GeoStatus.unknown
      latitude := ins.latitude
      longitude := ins.longitude
      markedBy := ins.markedBy
      createdAt := now }
  (att, { st with attendance := st.attendance ++ [att] })

/-- MemStorage.getValidToken: the first stored token (in iteration order)
whose token string equals the submitted one and whose `expiresAt` is in
the future (`t.expiresAt > new Date()`, i.e. `now < t.expiresAt`). -/
def getValidToken (st : Store) (tok : String) (now : Int) : Option QRToken :=
  st.qrTokens.find? (fun t => t.token == tok && decide (now < t.expiresAt))

/-- MemStorage.createQRToken: spreads the insert payload (so `expiresAt`
is stored exactly as supplied by the caller), adds a fresh id and stamps
`createdAt` with the current time. -/
def createQRToken (st : Store) (ins : InsertQRToken) (freshId : String)
    (now : Int) : QRToken × Store :=
  let qrToken : QRToken :=
    { id := freshId
      sessionId := ins.sessionId
      token := ins.token
      expiresAt := ins.expiresAt
      createdAt := now }
  (qrToken, { st with qrTokens := st.qrTokens ++ [qrToken] })

/-- The object spread `{ ...session, ...updates }` of
MemStorage.updateSession: every field present in the update overwrites
the stored field. -/
def applySessionUpdate (s : Session) (u : SessionUpdate) : Session :=
  { id := u.id.getD s.id
    facultyId := u.facultyId.getD s.facultyId
    semester := u.semester.getD s.semester
    branch := u.branch.getD s.branch
    subject := u.subject.getD s.subject
    isActive := u.isActive.getD s.isActive
    geofencingEnabled := u.geofencingEnabled.getD s.geofencingEnabled
    createdAt := u.createdAt.getD s.createdAt
    endedAt := u.endedAt.getD s.endedAt }

/-- MemStorage.updateSession: merge the updates into the session with the
given id, if present (Map.set on an existing key keeps its position).
PATCH /api/sessions/:id passes `req.body` straight through, so the update
is arbitrary caller input. -/
def updateSession (st : Store) (id : String) (u : SessionUpdate) : Store :=
  { st with sessions := st.sessions.map (fun s => if s.id == id then applySessionUpdate s u else s) }

/-! ## Route handlers (server/routes.ts) -/

/-- Outcome of POST /api/verify-qr: the three responses of the handler. -/
inductive VerifyResult where
  | invalidToken
  | duplicate
  | success (att : Attendance)
deriving DecidableEq, Repr

/-- The duplicate test of the verify-qr handler:
`existingAttendance.find(record => record.studentId === studentId)`
applied to `getAttendance(sessionId)`, used for its truthiness. -/
def alreadyMarked (st : Store) (sessionId studentId : String) : Bool :=
  ((getAttendance st sessionId).find? (fun r => r.studentId == studentId)).isSome

/-- POST /api/verify-qr: validate the token (string lookup with expiry,
then session scope), reject a second record for the same
(sessionId, studentId), otherwise create the attendance record with
status "present", geofencingStatus from the request
(`geofencingStatus || "unknown"`), the submitted coordinates, and
markedBy null. -/
def verifyQRHandler (st : Store) (sessionId tok studentId : String)
    (latitude longitude : Option ℚ) (geofencingStatus : Option GeoStatus)
    (freshId : String) (now : Int) : VerifyResult × Store :=
  match getValidToken st tok now with
  | none => (VerifyResult.invalidToken, st)
  | some qrToken =>
    if qrToken.sessionId == sessionId then
      if alreadyMarked st sessionId studentId then (VerifyResult.duplicate, st)
      else
        let r := createAttendance st
          { sessionId := sessionId
            studentId := studentId
            status := AttStatus.present
            geofencingStatus := some (geofencingStatus.getD GeoStatus.unknown)
            latitude := latitude
            longitude := longitude
            markedBy := none } freshId now
        (VerifyResult.success r.1, r.2)
    else (VerifyResult.invalidToken, st)

/-- POST /api/attendance: after schema validation the handler calls
storage.createAttendance directly — there is no duplicate check on this
path. -/
def postAttendanceHandler (st : Store) (ins : InsertAttendance)
    (freshId : String) (now : Int) : Attendance × Store :=
  createAttendance st ins freshId now

/-- The boolean gate of the verify-qr handler in isolation
(`!qrToken || qrToken.sessionId !== sessionId` inverted): the submitted
token string is accepted for the requested session at time `now`. -/
def validateTokenForSession (st : Store) (sessionId tok : String) (now : Int) : Bool :=
  match getValidToken st tok now with
  | none => false
  | some qrToken => qrToken.sessionId == sessionId

/-! ## Faculty manual override (LiveStats.onManualAttendance)

The handler reads the session attendance list (the live subscription on
the session id), refuses when a record for the student already exists,
and otherwise inserts a record with the chosen action, geofencingStatus
"unknown", no coordinates, and markedBy set to the faculty id. -/

/-- LiveStats.onManualAttendance, at the storage level. -/
def onManualAttendance (st : Store) (sessionId studentId : String)
    (action : AttStatus) (facultyId : String) (freshId : String)
    (now : Int) : Option Attendance × Store :=
  if alreadyMarked st sessionId studentId then (none, st)
  else
    let r := createAttendance st
      { sessionId := sessionId
        studentId := studentId
        status := action
        geofencingStatus := some GeoStatus.unknown
        latitude := none
        longitude := none
        markedBy := some facultyId } freshId now
    (some r.1, r.2)

/-! ## QR token generation (QRGenerator) -/

/-- The per-session display context embedded in tokens. -/
structure SessionData where
  subject : String
  semester : Int
  branch : String
deriving DecidableEq, Repr

/-- `subject.replace(/\s+/g, '')`: remove all whitespace characters. -/
def stripWhitespace (s : String) : String :=
  String.mk (s.toList.filter (fun c => !c.isWhitespace))

/-- QRGenerator.generateQRToken: the token string is the template literal
`TK_` + Date.now() + `_` + subject (whitespace stripped) + `_` + branch +
`_S` + semester. It is a pure function of the clock and the public
session context; it contains no random component. -/
def generateQRToken (timestamp : Int) (sessionData : SessionData) : String :=
  "TK_" ++ toString timestamp ++ "_" ++ stripWhitespace sessionData.subject
    ++ "_" ++ sessionData.branch ++ "_S" ++ toString sessionData.semester

/-- The QR refresh cadence of QRGenerator: setInterval(updateQR, 2000). -/
def qrRefreshIntervalMs : Int := 2000

/-! ## Geofence evaluator (useGeolocation) -/

/-- JavaScript Math.atan2(y, x). Only the first quadrant (y ≥ 0, x ≥ 0)
is exercised by the haversine formula, where it agrees with arctan. -/
noncomputable def atan2 (y x : ℝ) : ℝ :=
  if 0 < x then Real.arctan (y / x)
  else if x < 0 then
    (if 0 ≤ y then Real.arctan (y / x) + Real.pi else Real.arctan (y / x) - Real.pi)
  else if 0 < y then Real.pi / 2
  else if y < 0 then -(Real.pi / 2)
  else 0

/-- The intermediate value `a` of calculateDistance:
sin(Δφ/2)·sin(Δφ/2) + cos φ1 · cos φ2 · sin(Δλ/2)·sin(Δλ/2), with
φ = lat·π/180 and Δφ, Δλ the degree differences converted to radians. -/
noncomputable def havA (lat1 lon1 lat2 lon2 : ℝ) : ℝ :=
  Real.sin ((lat2 - lat1) * Real.pi / 180 / 2) * Real.sin ((lat2 - lat1) * Real.pi / 180 / 2) +
    Real.cos (lat1 * Real.pi / 180) * Real.cos (lat2 * Real.pi / 180) *
      Real.sin ((lon2 - lon1) * Real.pi / 180 / 2) * Real.sin ((lon2 - lon1) * Real.pi / 180 / 2)

/-- useGeolocation.calculateDistance: the haversine great-circle
distance, R = 6371e3 meters, c = 2·atan2(√a, √(1−a)), result R·c. -/
noncomputable def calculateDistance (lat1 lon1 lat2 lon2 : ℝ) : ℝ :=
  6371000 * (2 * atan2 (Real.sqrt (havA lat1 lon1 lat2 lon2))
    (Real.sqrt (1 - havA lat1 lon1 lat2 lon2)))

/-- CAMPUS_BOUNDARIES.center.lat. -/
noncomputable def campusCenterLat : ℝ := 12.9716

/-- CAMPUS_BOUNDARIES.center.lng. -/
noncomputable def campusCenterLng : ℝ := 77.5946

/-- CAMPUS_BOUNDARIES.radius (meters). -/
noncomputable def campusRadius : ℝ := 1000

/-- Result record of useGeolocation.checkGeofence. -/
structure GeofenceResult where
  isInsideCampus : Bool
  status : GeoStatus
deriving DecidableEq, Repr

/-- useGeolocation.checkGeofence: distance from the reported point to the
campus center; inside exactly when distance ≤ radius (the catch branch of
the source is unreachable for the pure distance computation). -/
noncomputable def checkGeofence (lat lng : ℝ) : GeofenceResult :=
  if calculateDistance lat lng campusCenterLat campusCenterLng ≤ campusRadius then
    { isInsideCampus := true, status := GeoStatus.inside }
  else
    { isInsideCampus := false, status := GeoStatus.outside }

/-! ## Student scan submission (QRScanner.processQRCode) -/

/-- The geofencingStatus computed before submission: the guard is the
JavaScript truthiness test `if (latitude && longitude)`, under which both
null and 0 are falsy, so the geofence is evaluated only when both
coordinates are present and nonzero. -/
noncomputable def clientGeofencingStatus : Option ℚ → Option ℚ → GeoStatus
  | some la, some lo =>
      if la ≠ 0 ∧ lo ≠ 0 then (checkGeofence (la : ℝ) (lo : ℝ)).status
      else GeoStatus.unknown
  | _, _ => GeoStatus.unknown

/-- The argument object of the markAttendance call in processQRCode:
coordinates are attached as `latitude?.toString()`. -/
structure MarkPayload where
  sessionId : String
  studentId : String
  status : AttStatus
  geofencingStatus : GeoStatus
  latitude : Option String
  longitude : Option String
  markedBy : Option String
deriving DecidableEq, Repr

/-- QRScanner.processQRCode, reduced to the submission it produces for a
parsed QR payload: status "present", the geofencing status computed
above, the (stringified) coordinates, and markedBy null. -/
noncomputable def processQRCode (studentId sessionId : String)
    (latitude longitude : Option ℚ) : MarkPayload :=
  { sessionId := sessionId
    studentId := studentId
    status := AttStatus.present
    geofencingStatus := clientGeofencingStatus latitude longitude
    latitude := latitude.map toString
    longitude := longitude.map toString
    markedBy := none }

/-! ## The uniqueness invariant -/

/-- At most one attendance record per (sessionId, studentId) pair: no two
distinct positions of the store hold records agreeing on both fields. -/
def uniquePairs (st : Store) : Prop :=
  st.attendance.Pairwise
    (fun a b => ¬(a.sessionId = b.sessionId ∧ a.studentId = b.studentId))

instance (st : Store) : Decidable (uniquePairs st) :=
  List.instDecidablePairwise st.attendance

/-- The number of records of the store for one (sessionId, studentId)
pair. -/
def pairCount (st : Store) (sessionId studentId : String) : Nat :=
  (st.attendance.filter
    (fun r => r.sessionId == sessionId && r.studentId == studentId)).length

/-! ## Two-phase execution of the verify-qr handler

The handler performs three awaited storage calls in sequence: the token
lookup, the duplicate read, and the insert. Each storage call is atomic,
but nothing serialises the sequence, so another request may run between
the duplicate read and the insert. The guard section (token lookup plus
duplicate read, both pure reads) is `verifyQRCheck`; the insert is
`doInsert`. A schedule that runs both guard sections before either
insert corresponds to two requests interleaving exactly at that gap. -/

/-- Decision of the guard section of the verify-qr handler, as a pure
read of the store. -/
inductive CheckOutcome where
  | rejectInvalid
  | rejectDup
  | proceed
deriving DecidableEq, Repr

/-- The guard section of the verify-qr handler: token lookup with expiry
and scope check, then the duplicate read. -/
def verifyQRCheck (st : Store) (sessionId tok studentId : String)
    (now : Int) : CheckOutcome :=
  match getValidToken st tok now with
  | none => CheckOutcome.rejectInvalid
  | some qrToken =>
    if qrToken.sessionId == sessionId then
      if alreadyMarked st sessionId studentId then CheckOutcome.rejectDup
      else CheckOutcome.proceed
    else CheckOutcome.rejectInvalid

/-- One in-flight verify-qr request: its request body plus the fresh id
its insert will use. -/
structure AttemptSpec where
  sessionId : String
  token : String
  studentId : String
  latitude : Option ℚ
  longitude : Option ℚ
  geofencingStatus : Option GeoStatus
  freshId : String
deriving DecidableEq, Repr

/-- Progress of one in-flight request: not yet checked, past the guard
section and about to insert, or finished with a response. -/
inductive AttemptPhase where
  | pending
  | ready
  | done (r : VerifyResult)
deriving DecidableEq, Repr

/-- Shared store plus the progress of every in-flight request. -/
structure ConcState where
  store : Store
  attempts : List (AttemptSpec × AttemptPhase)
deriving DecidableEq, Repr

/-- A scheduler step: run the guard section of request i, or run the
insert of request i. -/
inductive SchedStep where
  | check (i : Nat)
  | insertRec (i : Nat)
deriving DecidableEq, Repr

/-- Run the guard section of request i against the current store. -/
def doCheck (now : Int) (cs : ConcState) (i : Nat) : ConcState :=
  match cs.attempts.get? i with
  | some (spec, AttemptPhase.pending) =>
    let ph :=
      match verifyQRCheck cs.store spec.sessionId spec.token spec.studentId now with
      | CheckOutcome.rejectInvalid => AttemptPhase.done VerifyResult.invalidToken
      | CheckOutcome.rejectDup => AttemptPhase.done VerifyResult.duplicate
      | CheckOutcome.proceed => AttemptPhase.ready
    { cs with attempts := cs.attempts.set i (spec, ph) }
  | _ => cs

/-- Run the insert of request i (the createAttendance call of the
handler, with the same payload the handler builds). -/
def doInsert (now : Int) (cs : ConcState) (i : Nat) : ConcState :=
  match cs.attempts.get? i with
  | some (spec, AttemptPhase.ready) =>
    let r := createAttendance cs.store
      { sessionId := spec.sessionId
        studentId := spec.studentId
        status := AttStatus.present
        geofencingStatus := some (spec.geofencingStatus.getD GeoStatus.unknown)
        latitude := spec.latitude
        longitude := spec.longitude
        markedBy := none } spec.freshId now
    { store := r.2,
      attempts := cs.attempts.set i (spec, AttemptPhase.done (VerifyResult.success r.1)) }
  | _ => cs

/-- Execute a schedule of interleaved steps. -/
def runSchedule (now : Int) : ConcState → List SchedStep → ConcState
  | cs, [] => cs
  | cs, SchedStep.check i :: rest => runSchedule now (doCheck now cs i) rest
  | cs, SchedStep.insertRec i :: rest => runSchedule now (doInsert now cs i) rest

/-- How many of the in-flight requests finished with a success
response. -/
def countSuccesses (cs : ConcState) : Nat :=
  (cs.attempts.filter (fun p => match p.2 with
    | AttemptPhase.done (VerifyResult.success _) => true
    | _ => false)).length

/-! ## Concrete stores and inputs used by witnesses and counterexamples -/

/-- A live token for session s1, created at time 0, expiring at 1000. -/
def liveToken : QRToken :=
  { id := "t1", sessionId := "s1", token := "tok", expiresAt := 1000, createdAt := 0 }

/-- A store holding exactly the live token. -/
def liveTokenStore : Store :=
  { sessions := [], attendance := [], qrTokens := [liveToken] }

/-- An attendance insert payload for the pair (s1, stu). -/
def dupInsert : InsertAttendance :=
  { sessionId := "s1", studentId := "stu", status := AttStatus.present,
    geofencingStatus := none, latitude := none, longitude := none, markedBy := none }

/-- The record the verify-qr handler creates for a scan of the live
token by student stu at time 100 with no coordinates. -/
def scanRecord : Attendance :=
  { id := "a1", sessionId := "s1", studentId := "stu", status := AttStatus.present,
    geofencingStatus := GeoStatus.unknown, latitude := none, longitude := none,
    markedBy := none, createdAt := 100 }

/-- First of two racing scans of the live token by student stu1. -/
def raceAttemptA : AttemptSpec :=
  { sessionId := "s1", token := "tok", studentId := "stu1", latitude := none,
    longitude := none, geofencingStatus := none, freshId := "a1" }

/-- Second of two racing scans of the live token by student stu1. -/
def raceAttemptB : AttemptSpec :=
  { sessionId := "s1", token := "tok", studentId := "stu1", latitude := none,
    longitude := none, geofencingStatus := none, freshId := "a2" }

/-- Both racing requests in flight against the live-token store. -/
def raceStart : ConcState :=
  { store := liveTokenStore,
    attempts := [(raceAttemptA, AttemptPhase.pending), (raceAttemptB, AttemptPhase.pending)] }

/-- The interleaving in which both guard sections run before either
insert: check A, check B, insert A, insert B, all at time 100. -/
def raceFinal : ConcState :=
  runSchedule 100 raceStart
    [SchedStep.check 0, SchedStep.check 1, SchedStep.insertRec 0, SchedStep.insertRec 1]

/-- A session that has already ended (isActive false, endedAt set). -/
def endedSession : Session :=
  { id := "s1", facultyId := "f1", semester := 3, branch := "CS",
    subject := "Operating Systems", isActive := false, geofencingEnabled := true,
    createdAt := 0, endedAt := some 50 }

/-- A store holding exactly the ended session. -/
def endedStore : Store :=
  { sessions := [endedSession], attendance := [], qrTokens := [] }

/-- A PATCH body that reactivates a session and clears its end time. -/
def reactivateUpdate : SessionUpdate :=
  { isActive := some true, endedAt := some none }

/-- The one session mutation the client ever issues
(FacultyDashboard.handleEndSession): isActive false, endedAt now. -/
def endSessionUpdate (now : Int) : SessionUpdate :=
  { isActive := some false, endedAt := some (some now) }

/-- A token insert payload whose expiry is 5000 ms after the clock value
0 at which it will be inserted. -/
def wideExpiryInsert : InsertQRToken :=
  { sessionId := "s1", token := "tokX", expiresAt := 5000 }

/-! ## Helper lemmas -/

/-- The duplicate test is negative exactly when no stored record carries
the (sessionId, studentId) pair. -/
theorem alreadyMarked_false_iff (st : Store) (sid stu : String) :
    alreadyMarked st sid stu = false ↔
      ∀ r ∈ st.attendance, ¬(r.sessionId = sid ∧ r.studentId = stu) := by
  simp [alreadyMarked, getAttendance, List.find?_eq_none, List.mem_filter]

/-- Inserting a record whose pair passed the duplicate test preserves
the uniqueness invariant. -/
theorem uniquePairs_insert (st : Store) (ins : InsertAttendance) (fid : String)
    (now : Int) (h : uniquePairs st)
    (hnew : alreadyMarked st ins.sessionId ins.studentId = false) :
    uniquePairs (createAttendance st ins fid now).2 := by
  have hn := (alreadyMarked_false_iff st ins.sessionId ins.studentId).mp hnew
  unfold uniquePairs createAttendance
  rw [List.pairwise_append]
  refine ⟨h, List.pairwise_singleton _ _, ?_⟩
  intro a ha b hb
  simp only [List.mem_singleton] at hb
  subst hb
  exact hn a ha

/-- atan2 stays in the closed upper-right quadrant on nonnegative
arguments. -/
theorem atan2_nonneg {y x : ℝ} (hy : 0 ≤ y) (hx : 0 ≤ x) : 0 ≤ atan2 y x := by
  unfold atan2
  by_cases h1 : 0 < x
  · rw [if_pos h1]
    rw [← Real.arctan_zero]
    exact Real.arctan_strictMono.monotone (div_nonneg hy hx)
  · rw [if_neg h1]
    have hx0 : x = 0 := le_antisymm (not_lt.mp h1) hx
    rw [if_neg (by rw [hx0]; exact lt_irrefl 0)]
    by_cases h2 : 0 < y
    · rw [if_pos h2]
      positivity
    · rw [if_neg h2]
      rw [if_neg (not_lt.mpr hy)]

/-- atan2 of the origin direction (0, 1) is 0. -/
theorem atan2_zero_one : atan2 0 1 = 0 := by
  unfold atan2
  rw [if_pos one_pos]
  simp [Real.arctan_zero]

/-- The haversine intermediate value is symmetric in the two points. -/
theorem havA_symm (lat1 lon1 lat2 lon2 : ℝ) :
    havA lat1 lon1 lat2 lon2 = havA lat2 lon2 lat1 lon1 := by
  unfold havA
  have h1 : (lat1 - lat2) * Real.pi / 180 / 2 = -((lat2 - lat1) * Real.pi / 180 / 2) := by
    ring
  have h2 : (lon1 - lon2) * Real.pi / 180 / 2 = -((lon2 - lon1) * Real.pi / 180 / 2) := by
    ring
  simp only [h1, h2, Real.sin_neg]
  ring

/-- The haversine intermediate value vanishes on coinciding points. -/
theorem havA_self (lat lon : ℝ) : havA lat lon lat lon = 0 := by
  unfold havA
  simp [sub_self]

/-- calculateDistance is symmetric in its two point arguments. -/
theorem calculateDistance_symm (lat1 lon1 lat2 lon2 : ℝ) :
    calculateDistance lat1 lon1 lat2 lon2 = calculateDistance lat2 lon2 lat1 lon1 := by
  unfold calculateDistance
  rw [havA_symm]

/-- calculateDistance of a point to itself is 0. -/
theorem calculateDistance_self (lat lon : ℝ) : calculateDistance lat lon lat lon = 0 := by
  unfold calculateDistance
  rw [havA_self]
  simp [Real.sqrt_zero, Real.sqrt_one, atan2_zero_one]

/-- calculateDistance is never negative. -/
theorem calculateDistance_nonneg (lat1 lon1 lat2 lon2 : ℝ) :
    0 ≤ calculateDistance lat1 lon1 lat2 lon2 := by
  unfold calculateDistance
  have h := atan2_nonneg (Real.sqrt_nonneg (havA lat1 lon1 lat2 lon2))
    (Real.sqrt_nonneg (1 - havA lat1 lon1 lat2 lon2))
  positivity

/-! ## Claim theorems -/

/-- Claim C1, counterexample: the claim says every marking operation
preserves the at-most-one-record invariant, but direct attendance
creation (POST /api/attendance, which calls createAttendance with no
duplicate check) does not: starting from the empty (reachable) store,
two direct creations for the pair (s1, stu) leave two records for that
pair. -/
theorem C1_direct_creation_counterexample :
    uniquePairs emptyStore ∧
    ¬ uniquePairs
      (postAttendanceHandler
        (postAttendanceHandler emptyStore dupInsert "a1" 10).2 dupInsert "a2" 20).2 ∧
    pairCount
      (postAttendanceHandler
        (postAttendanceHandler emptyStore dupInsert "a1" 10).2 dupInsert "a2" 20).2
      "s1" "stu" = 2 := by
  decide

/-- Claim C1, amended: of the three marking operations, QR-scan
verification and faculty manual entry preserve the at-most-one-record
invariant (each refuses when a record for the pair exists); direct
attendance creation performs no duplicate check and can violate it. -/
theorem C1_checked_paths_preserve (st : Store) (sid tok stu : String)
    (lat lng : Option ℚ) (gs : Option GeoStatus) (fid1 : String)
    (action : AttStatus) (facId fid2 : String) (now : Int)
    (h : uniquePairs st) :
    uniquePairs (verifyQRHandler st sid tok stu lat lng gs fid1 now).2 ∧
    uniquePairs (onManualAttendance st sid stu action facId fid2 now).2 := by
  constructor
  · unfold verifyQRHandler
    cases hvq : getValidToken st tok now with
    | none => exact h
    | some q =>
      by_cases hs : q.sessionId == sid
      · simp only [hs, if_true]
        by_cases hm : alreadyMarked st sid stu
        · simp only [hm, if_true]
          exact h
        · simp only [hm, if_false]
          exact uniquePairs_insert st _ fid1 now h (by simpa using hm)
      · simp only [hs, if_false]
        exact h
  · unfold onManualAttendance
    by_cases hm : alreadyMarked st sid stu
    · simp only [hm, if_true]
      exact h
    · simp only [hm, if_false]
      exact uniquePairs_insert st _ fid2 now h (by simpa using hm)

/-- Witness for C1_checked_paths_preserve at the empty store. -/
theorem C1_checked_paths_witness :
    uniquePairs (verifyQRHandler emptyStore "s1" "tok" "stu" none none none "a1" 0).2 ∧
    uniquePairs (onManualAttendance emptyStore "s1" "stu" AttStatus.absent "f1" "a2" 0).2 :=
  C1_checked_paths_preserve emptyStore "s1" "tok" "stu" none none none "a1"
    AttStatus.absent "f1" "a2" 0 (by decide)

/-- Claim C2: the claim says that under every interleaving of N
concurrent marking attempts with the same (sessionId, studentId) exactly
one succeeds. The handler is a non-atomic check-then-insert, so in the
interleaving that runs both guard sections before either insert, two
concurrent scans of a live token both succeed and two records for the
pair (s1, stu1) are persisted, breaking the uniqueness invariant. -/
theorem C2_interleaved_double_success :
    countSuccesses raceFinal = 2 ∧
    pairCount raceFinal.store "s1" "stu1" = 2 ∧
    ¬ uniquePairs raceFinal.store := by
  decide

/-- Claim C3: under the schema constraint that stored token strings are
unique, the verify-qr token gate accepts exactly when some stored token
has the submitted string, belongs to the requested session, and has not
yet reached its expiry (current time strictly before expiresAt). Scope
isolation and expiry rejection are the negative directions of this
equivalence. -/
theorem C3_token_validation_iff (st : Store) (sid tok : String) (now : Int)
    (hU : (st.qrTokens.map (fun t => t.token)).Nodup) :
    validateTokenForSession st sid tok now = true ↔
      ∃ q ∈ st.qrTokens, q.token = tok ∧ q.sessionId = sid ∧ now < q.expiresAt := by
  constructor
  · intro hv
    unfold validateTokenForSession at hv
    cases hfq : getValidToken st tok now with
    | none => rw [hfq] at hv; exact absurd hv (by simp)
    | some q =>
      rw [hfq] at hv
      have hmem : q ∈ st.qrTokens := List.mem_of_find?_eq_some hfq
      have hp := List.find?_some hfq
      simp only [Bool.and_eq_true, beq_iff_eq, decide_eq_true_eq] at hp
      exact ⟨q, hmem, hp.1, by simpa using hv, hp.2⟩
  · rintro ⟨q, hmem, htok, hsid, hexp⟩
    have hsat : (fun t => t.token == tok && decide (now < t.expiresAt)) q = true := by
      simp [htok, hexp]
    have hsome : (getValidToken st tok now).isSome := by
      unfold getValidToken
      rw [List.find?_isSome]
      exact ⟨q, hmem, hsat⟩
    cases hfq : getValidToken st tok now with
    | none => rw [hfq] at hsome; simp at hsome
    | some q2 =>
      have hmem2 : q2 ∈ st.qrTokens := List.mem_of_find?_eq_some hfq
      have hp2 := List.find?_some hfq
      simp only [Bool.and_eq_true, beq_iff_eq, decide_eq_true_eq] at hp2
      have heq : q2 = q :=
        List.inj_on_of_nodup_map hU hmem2 hmem (by rw [hp2.1, htok])
      unfold validateTokenForSession
      rw [hfq, heq]
      simp [hsid]

/-- Witness for C3_token_validation_iff on the live-token store. -/
theorem C3_token_validation_witness :
    validateTokenForSession liveTokenStore "s1" "tok" 100 = true :=
  (C3_token_validation_iff liveTokenStore "s1" "tok" 100 (by decide)).mpr (by decide)

/-- Claim C4: for present coordinates, the geofence classification
computes the haversine distance (Earth radius 6371000 m inside
calculateDistance) from the reported point to the fixed campus center
(12.9716, 77.5946) and returns inside exactly when that distance is at
most 1000 m (boundary inclusive), outside otherwise. -/
theorem C4_geofence_classification (lat lng : ℝ) :
    ((checkGeofence lat lng).status = GeoStatus.inside ↔
      calculateDistance lat lng campusCenterLat campusCenterLng ≤ campusRadius) ∧
    ((checkGeofence lat lng).status = GeoStatus.outside ↔
      ¬ calculateDistance lat lng campusCenterLat campusCenterLng ≤ campusRadius) ∧
    ((checkGeofence lat lng).isInsideCampus = true ↔
      calculateDistance lat lng campusCenterLat campusCenterLng ≤ campusRadius) ∧
    campusCenterLat = 12.9716 ∧ campusCenterLng = 77.5946 ∧ campusRadius = 1000 := by
  unfold checkGeofence
  by_cases h : calculateDistance lat lng campusCenterLat campusCenterLng ≤ campusRadius
  · rw [if_pos h]
    exact ⟨by simp [h], by simp [h], by simp [h], rfl, rfl, rfl⟩
  · rw [if_neg h]
    exact ⟨by simp [h], by simp [h], by simp [h], rfl, rfl, rfl⟩

/-- Claim C5, counterexample: the claim says every created QRToken has
expiresAt − createdAt = 2000 ms, but createQRToken stores the
caller-supplied expiry unchanged: inserting a payload with expiresAt
5000 at clock 0 yields a token whose difference is 5000. -/
theorem C5_rotation_interval_counterexample :
    ¬ ((createQRToken emptyStore wideExpiryInsert "t9" 0).1.expiresAt -
        (createQRToken emptyStore wideExpiryInsert "t9" 0).1.createdAt = 2000) := by
  decide

/-- Claim C5, amended: createQRToken stores the caller-supplied
expiresAt verbatim and stamps createdAt with the insertion clock, so the
difference is whatever the caller chose; the 2000 ms figure exists in
the code only as the QR display refresh cadence. -/
theorem C5_expiry_passthrough (st : Store) (ins : InsertQRToken)
    (fid : String) (now : Int) :
    (createQRToken st ins fid now).1.expiresAt = ins.expiresAt ∧
    (createQRToken st ins fid now).1.createdAt = now ∧
    qrRefreshIntervalMs = 2000 :=
  ⟨rfl, rfl, rfl⟩

/-- Claim C6, counterexample: the claim says no operation can make an
ended session active again or change endedAt once set, but
updateSession merges arbitrary PATCH bodies: applying
{ isActive: true, endedAt: null } to the ended session reactivates it
and clears endedAt. -/
theorem C6_reactivation_counterexample :
    endedSession.isActive = false ∧
    endedSession.endedAt = some 50 ∧
    (updateSession endedStore "s1" reactivateUpdate).sessions =
      [applySessionUpdate endedSession reactivateUpdate] ∧
    (applySessionUpdate endedSession reactivateUpdate).isActive = true ∧
    (applySessionUpdate endedSession reactivateUpdate).endedAt = none := by
  decide

/-- Claim C6, amended: the session-ending transition is one-way only for
the single mutation the client actually issues (handleEndSession sends
isActive false and endedAt now); that update always leaves the session
inactive with endedAt set, but the PATCH surface itself accepts
arbitrary updates and can reverse the transition. -/
theorem C6_end_session_one_way (s : Session) (now : Int) :
    (applySessionUpdate s (endSessionUpdate now)).isActive = false ∧
    (applySessionUpdate s (endSessionUpdate now)).endedAt = some now :=
  ⟨rfl, rfl⟩

/-- Claim C7: the claim says tokens contain a cryptographically
unpredictable component and never collide; generateQRToken is a pure
function of the millisecond clock and the public session context, so
its output is fully determined — here evaluated at timestamp
1700000000000 for subject Data Structures, branch CS, semester 3 — and
any two issuances for the same session within one millisecond produce
this identical string. -/
theorem C7_token_deterministic :
    generateQRToken 1700000000000
        { subject := "Data Structures", semester := 3, branch := "CS" } =
      "TK_1700000000000_DataStructures_CS_S3" := by
  rfl

/-- Claim C8: the geofence distance is symmetric in its two point
arguments, zero on coinciding points, and never negative. -/
theorem C8_distance_symmetry_zero_nonneg :
    (∀ lat1 lon1 lat2 lon2 : ℝ,
      calculateDistance lat1 lon1 lat2 lon2 = calculateDistance lat2 lon2 lat1 lon1) ∧
    (∀ lat lon : ℝ, calculateDistance lat lon lat lon = 0) ∧
    (∀ lat1 lon1 lat2 lon2 : ℝ, 0 ≤ calculateDistance lat1 lon1 lat2 lon2) :=
  ⟨calculateDistance_symm, calculateDistance_self, calculateDistance_nonneg⟩

/-- Claim C9: with absent coordinates the client computes geofencing
status unknown (both in the geofence step and in the submitted payload),
and a verify-qr request without coordinates and without a geofencing
status stores a record whose geofencingStatus is unknown. -/
theorem C9_absent_coords_unknown (st : Store) (sid tok stu fid : String)
    (now : Int) (att : Attendance)
    (h : (verifyQRHandler st sid tok stu none none none fid now).1 =
      VerifyResult.success att) :
    clientGeofencingStatus none none = GeoStatus.unknown ∧
    (processQRCode stu sid none none).geofencingStatus = GeoStatus.unknown ∧
    att.geofencingStatus = GeoStatus.unknown := by
  refine ⟨rfl, rfl, ?_⟩
  unfold verifyQRHandler createAttendance at h
  cases hfq : getValidToken st tok now with
  | none => rw [hfq] at h; exact absurd h (by simp)
  | some q =>
    rw [hfq] at h
    dsimp only at h
    by_cases hs : q.sessionId == sid
    · rw [if_pos hs] at h
      by_cases hm : alreadyMarked st sid stu
      · rw [if_pos hm] at h
        exact absurd h (by simp)
      · rw [if_neg hm] at h
        dsimp only at h
        simp only [VerifyResult.success.injEq] at h
        rw [← h]
        rfl
    · rw [if_neg hs] at h
      exact absurd h (by simp)

/-- Witness for C9_absent_coords_unknown: a scan of the live token at
time 100 succeeds and stores geofencingStatus unknown. -/
theorem C9_absent_coords_witness :
    clientGeofencingStatus none none = GeoStatus.unknown ∧
    (processQRCode "stu" "s1" none none).geofencingStatus = GeoStatus.unknown ∧
    scanRecord.geofencingStatus = GeoStatus.unknown :=
  C9_absent_coords_unknown liveTokenStore "s1" "tok" "stu" "a1" 100 scanRecord (by decide)

/-- Claim C10: at scan submission, a coordinate equal to 0 is falsy
under the JavaScript guard, so the geofence is skipped and the status
submitted is unknown, while the zero coordinate is still attached
(stringified) to the payload. -/
theorem C10_zero_coordinate_unknown (stu sid : String) (lat lng : ℚ) :
    ((processQRCode stu sid (some 0) (some lng)).geofencingStatus = GeoStatus.unknown ∧
      (processQRCode stu sid (some 0) (some lng)).latitude = some "0" ∧
      (processQRCode stu sid (some 0) (some lng)).longitude = some (toString lng)) ∧
    ((processQRCode stu sid (some lat) (some 0)).geofencingStatus = GeoStatus.unknown ∧
      (processQRCode stu sid (some lat) (some 0)).longitude = some "0" ∧
      (processQRCode stu sid (some lat) (some 0)).latitude = some (toString lat)) := by
  constructor
  · refine ⟨?_, rfl, rfl⟩
    show (if (0 : ℚ) ≠ 0 ∧ lng ≠ 0 then (checkGeofence ((0 : ℚ) : ℝ) ((lng : ℚ) : ℝ)).status
      else GeoStatus.unknown) = GeoStatus.unknown
    rw [if_neg]
    tauto
  · refine ⟨?_, rfl, rfl⟩
    show (if (lat : ℚ) ≠ 0 ∧ (0 : ℚ) ≠ 0 then (checkGeofence ((lat : ℚ) : ℝ) ((0 : ℚ) : ℝ)).status
      else GeoStatus.unknown) = GeoStatus.unknown
    rw [if_neg]
    tauto

end Attend
